import Mathlib

/-!
Verification of the export module of great-tables
(src/great_tables/_export.py), which provides two operations:
as_raw_html (render a GT table object to an HTML string) and
save (screenshot the rendered HTML in a headless browser and crop
the table element out of the screenshot).

Numeric values that are Python floats or ints in the source are
modelled over the rationals, where the arithmetic of the source
(products, sums, differences of small decimal values) is exact.
Strings are modelled as Lean strings or as lists of characters.
-/

namespace GreatTables

/-! ## HTML extraction (as_raw_html, lines 15-43)

The GT object is external to this file: it exposes a build step
(GT._build_data, called with context="html") producing a built table,
and the built table exposes a serialization step (_render_as_html)
taking the two flags make_page and all_important.  Either step may
raise, which we model with Except: an error value propagates to the
caller of as_raw_html unchanged. -/

/-- A built render tree, as returned by GT._build_data: it can
serialize itself to HTML given the flags make_page and all_important,
or fail with an error bubbling up from the renderer. -/
structure RenderTree where
  render_as_html : Bool → Bool → Except String String

/-- The GT table object, abstracted to the single capability
as_raw_html uses: building the render tree for a given context
string, which may fail. -/
structure GT where
  build_data : String → Except String RenderTree

/-- Embedding of as_raw_html (lines 15-43): build the data with
context="html", then render it as HTML with the two flags.  The
source has defaults make_page=False and all_important=False. -/
def as_raw_html (self : GT) (make_page : Bool := false)
    (all_important : Bool := false) : Except String String := do
  let built_table ← self.build_data "html"
  built_table.render_as_html make_page all_important

/-- Embedding of line 155 of save: the HTML content written to the
temporary file is as_raw_html(self), with both flags left at their
defaults. -/
def save_html_content (self : GT) : Except String String :=
  as_raw_html self

/-! ## File-extension handling (save, lines 147-152)

Python: file_extension = file.split(".")[-1]; if
len(file_extension) == len(file): file += ".png".  We model the
Python string as a list of characters and str.split(".") directly. -/

/-- Python str.split on the single separator character given:
splitting the empty string yields one empty field, and every
occurrence of the separator starts a new field. -/
def pySplit (sep : Char) : List Char → List (List Char)
  | [] => [[]]
  | c :: cs =>
    if c = sep then [] :: pySplit sep cs
    else
      match pySplit sep cs with
      | [] => [[c]]
      | r :: rs => (c :: r) :: rs

/-- Embedding of line 148: file_extension = file.split(".")[-1]. -/
def file_extension (file : List Char) : List Char :=
  (pySplit '.' file).getLastD []

/-- Embedding of lines 151-152: if the extension has the same length
as the whole name (which happens exactly when the split returned the
whole name as its only field), append ".png". -/
def save_fix_file (file : List Char) : List Char :=
  if (file_extension file).length = file.length then file ++ ".png".data
  else file

/-- Formalisation of the claim wording "the path has an extension" in
the conventional sense: some dot occurs in the path and the part after
the last dot is nonempty.  This definition follows the claim text, not
the code; the code is save_fix_file. -/
def claimed_has_extension (file : List Char) : Bool :=
  file.contains '.' && (file_extension file ≠ [] : Bool)

/-! ## Crop-rectangle arithmetic (save, lines 195-228) -/

/-- Element location on the page in CSS pixels, as reported by the
driver (element.location, line 210). -/
structure Location where
  x : ℚ
  y : ℚ
deriving DecidableEq

/-- Element size in CSS pixels (element.size, line 211). -/
structure Size where
  width : ℚ
  height : ℚ
deriving DecidableEq

/-- Embedding of line 196: scaling_factor = scale * 2. -/
def scaling_factor (scale : ℚ) : ℚ := scale * 2

/-- Embedding of line 199: expansion_amount = expand * scaling_factor. -/
def expansion_amount (expand scale : ℚ) : ℚ :=
  expand * scaling_factor scale

/-- The four crop coordinates (left, top, right, bottom). -/
structure CropRect where
  left : ℚ
  top : ℚ
  right : ℚ
  bottom : ℚ
deriving DecidableEq

/-- Embedding of lines 222-225: the crop rectangle computed by save
from the element location and size, the scale and the expand
arguments. -/
def save_crop_box (location : Location) (size : Size)
    (scale expand : ℚ) : CropRect :=
  { left := location.x * scaling_factor scale - expansion_amount expand scale
    top := location.y * scaling_factor scale - expansion_amount expand scale
    right := (location.x + size.width) * scaling_factor scale
      + expansion_amount expand scale
    bottom := (location.y + size.height) * scaling_factor scale
      + expansion_amount expand scale }

/-- Embedding of line 228: the tuple handed to image.crop is exactly
the four computed coordinates, with no clamping applied. -/
def image_crop_arg (r : CropRect) : ℚ × ℚ × ℚ × ℚ :=
  (r.left, r.top, r.right, r.bottom)

/-! ## Web-driver selection and option configuration (lines 161-180)

The if/elif chain at lines 161-172 has no else branch: for a
web_driver value outside the four recognized strings the local
variables wdriver and wd_options are never assigned, and the first
later use of wd_options raises Python's NameError.  We model the two
locals as Option values (none = unbound) and a use of an unbound
local as a NameError. -/

/-- The four selenium driver constructors the chain can pick. -/
inductive DriverCtor
  | chrome
  | safari
  | firefox
  | edge
deriving DecidableEq

/-- Errors of the modelled option-configuration phase: Python raises
NameError when an unassigned local is read. -/
inductive PyErr
  | nameError
deriving DecidableEq

/-- Reading a local variable: unbound raises NameError. -/
def readLocal {α : Type} : Option α → Except PyErr α
  | some a => Except.ok a
  | none => Except.error PyErr.nameError

/-- Embedding of lines 161-172, wdriver branch: which driver
constructor the chain binds, none when web_driver is unrecognized. -/
def select_wdriver (web_driver : String) : Option DriverCtor :=
  if web_driver = "chrome" then some DriverCtor.chrome
  else if web_driver = "safari" then some DriverCtor.safari
  else if web_driver = "firefox" then some DriverCtor.firefox
  else if web_driver = "edge" then some DriverCtor.edge
  else none

/-- Embedding of lines 161-172, wd_options branch: a freshly built
options object (modelled as its list of added arguments, initially
empty), none when web_driver is unrecognized. -/
def initial_wd_options (web_driver : String) : Option (List String) :=
  if web_driver = "chrome" then some []
  else if web_driver = "safari" then some []
  else if web_driver = "firefox" then some []
  else if web_driver = "edge" then some []
  else none

/-- Embedding of lines 174-180: add "--headless" unless web_driver is
"firefox", then always add the width and height arguments taken from
window_size.  Each add_argument call reads wd_options, so an unbound
wd_options fails with NameError at its first use, before any browser
session is opened. -/
def configured_wd_options (web_driver : String)
    (window_size : ℤ × ℤ) : Except PyErr (List String) := do
  let opts0 := initial_wd_options web_driver
  let opts1 ←
    if web_driver ≠ "firefox" then do
      let o ← readLocal opts0
      pure (some (o ++ ["--headless"]))
    else pure opts0
  let o1 ← readLocal opts1
  let o2 := o1 ++ [s!"--width={window_size.1}"]
  let o3 := o2 ++ [s!"--height={window_size.2}"]
  pure o3

/-! ## Scoped acquisition of the temp file and the browser session
(lines 182-214)

The with-statement at line 182 enters the temporary HTML file, then
the browser session, runs the body, and on exit (normal or raising)
releases the browser first and the temp file second.  We model a
computation as the list of events it performs together with its
outcome; the with-combinator appends the release event on both
outcomes, which is exactly the guarantee of the Python construct. -/

/-- Observable resource and browser events of the save session. -/
inductive Ev
  | acquireTempFile
  | acquireBrowser
  | writeHtml
  | navigate
  | executeScript
  | findElement
  | screenshot
  | releaseBrowser
  | releaseTempFile
deriving DecidableEq

/-- A session computation: the trace of events it performed and its
outcome (an error propagates to the caller unchanged). -/
def Proc (α : Type) : Type := List Ev × Except String α

/-- Sequencing of session computations: after a failure the
continuation does not run (no retry). -/
def Proc.bind {α β : Type} (p : Proc α) (f : α → Proc β) : Proc β :=
  match p.2 with
  | Except.error e => (p.1, Except.error e)
  | Except.ok a => ((p.1 ++ (f a).1), (f a).2)

/-- A single driver call: one event, with the outcome supplied by the
environment. -/
def Proc.step {α : Type} (ev : Ev) (r : Except String α) : Proc α :=
  ([ev], r)

/-- Python with-statement over one resource: the acquire event runs
first, the release event runs after the body on every path, and the
outcome of the body (value or error) is returned unchanged. -/
def pyWith {α : Type} (acq rel : Ev) (body : Proc α) : Proc α :=
  (acq :: body.1 ++ [rel], body.2)

/-- Outcomes of the fallible browser calls inside the with-block,
supplied by the environment (the real browser). -/
structure BrowserEnv where
  write : Except String Unit
  nav : Except String Unit
  script : Except String Unit
  find : Except String (Location × Size)
  shot : Except String (List ℕ)

/-- Embedding of lines 187-214, the body of the with-block: write the
HTML, navigate to the file URL, set the zoom, locate the element and
read its location and size, take the screenshot. -/
def session_body (env : BrowserEnv) : Proc (Location × Size × List ℕ) :=
  Proc.bind (Proc.step Ev.writeHtml env.write) fun _ =>
  Proc.bind (Proc.step Ev.navigate env.nav) fun _ =>
  Proc.bind (Proc.step Ev.executeScript env.script) fun _ =>
  Proc.bind (Proc.step Ev.findElement env.find) fun ls =>
  Proc.bind (Proc.step Ev.screenshot env.shot) fun png =>
  ([], Except.ok (ls.1, ls.2, png))

/-- Embedding of lines 182-214: the temp file is entered first and the
browser second, so on exit the browser is released before the temp
file. -/
def save_with_block (env : BrowserEnv) : Proc (Location × Size × List ℕ) :=
  pyWith Ev.acquireTempFile Ev.releaseTempFile
    (pyWith Ev.acquireBrowser Ev.releaseBrowser (session_body env))

/-! ## Helper lemmas about pySplit -/

/-- Splitting never yields an empty list of fields. -/
theorem pySplit_ne_nil (sep : Char) (l : List Char) : pySplit sep l ≠ [] := by
  cases l with
  | nil => simp [pySplit]
  | cons c cs =>
    by_cases hc : c = sep
    · simp [pySplit, hc]
    · simp only [pySplit, if_neg hc]
      cases h : pySplit sep cs with
      | nil => simp
      | cons r rs => simp

/-- When the separator does not occur, the split is the whole input as
its single field. -/
theorem pySplit_of_not_mem (sep : Char) (l : List Char) (h : sep ∉ l) :
    pySplit sep l = [l] := by
  induction l with
  | nil => rfl
  | cons c cs ih =>
    have hc : ¬ c = sep := by
      intro e
      exact h (by simp [e])
    have hcs : sep ∉ cs := fun m => h (List.mem_cons_of_mem _ m)
    simp only [pySplit, if_neg hc, ih hcs]

/-- The last field of the split is never longer than the input. -/
theorem pySplit_last_length_le (sep : Char) (l : List Char) :
    ((pySplit sep l).getLastD []).length ≤ l.length := by
  induction l with
  | nil => simp [pySplit]
  | cons c cs ih =>
    by_cases hc : c = sep
    · simp only [pySplit, if_pos hc, List.getLastD_cons, List.length_cons]
      exact Nat.le_succ_of_le ih
    · simp only [pySplit, if_neg hc]
      cases h : pySplit sep cs with
      | nil => exact absurd h (pySplit_ne_nil sep cs)
      | cons r rs =>
        rw [h] at ih
        cases rs with
        | nil =>
          simp only [List.getLastD_cons, List.getLastD_nil,
            List.length_cons] at ih ⊢
          exact Nat.succ_le_succ ih
        | cons r2 rest =>
          rw [List.getLastD_cons, List.getLastD_cons] at ih
          rw [List.getLastD_cons, List.getLastD_cons]
          simp only [List.length_cons]
          exact Nat.le_succ_of_le ih

/-- When the separator occurs in the input, the last field of the
split is strictly shorter than the input. -/
theorem pySplit_last_length_lt (sep : Char) (l : List Char) (h : sep ∈ l) :
    ((pySplit sep l).getLastD []).length < l.length := by
  induction l with
  | nil => cases h
  | cons c cs ih =>
    by_cases hc : c = sep
    · simp only [pySplit, if_pos hc, List.getLastD_cons, List.length_cons]
      exact Nat.lt_succ_of_le (pySplit_last_length_le sep cs)
    · have hcs : sep ∈ cs := by
        cases List.mem_cons.mp h with
        | inl e => exact absurd e.symm hc
        | inr m => exact m
      simp only [pySplit, if_neg hc]
      cases hsp : pySplit sep cs with
      | nil => exact absurd hsp (pySplit_ne_nil sep cs)
      | cons r rs =>
        have ih2 := ih hcs
        rw [hsp] at ih2
        cases rs with
        | nil =>
          simp only [List.getLastD_cons, List.getLastD_nil,
            List.length_cons] at ih2 ⊢
          exact Nat.succ_lt_succ ih2
        | cons r2 rest =>
          rw [List.getLastD_cons, List.getLastD_cons] at ih2
          rw [List.getLastD_cons, List.getLastD_cons]
          simp only [List.length_cons]
          exact Nat.lt_succ_of_lt ih2

/-- A path without a dot gets ".png" appended by save. -/
theorem save_fix_file_of_not_mem (file : List Char) (h : '.' ∉ file) :
    save_fix_file file = file ++ ".png".data := by
  unfold save_fix_file file_extension
  rw [pySplit_of_not_mem '.' file h]
  simp

/-- A path containing a dot is left unchanged by save. -/
theorem save_fix_file_of_mem (file : List Char) (h : '.' ∈ file) :
    save_fix_file file = file := by
  have hlt : (file_extension file).length < file.length :=
    pySplit_last_length_lt '.' file h
  unfold save_fix_file
  rw [if_neg (Nat.ne_of_lt hlt)]

/-! ## The claims -/

/-- C1 (amended): save passes to image.crop exactly the four values
left = x·sf − ea, top = y·sf − ea, right = (x+w)·sf + ea,
bottom = (y+h)·sf + ea with sf = scale·2 and ea = expand·sf, with no
clamping (negative or out-of-range values pass through unchanged);
at x=10, y=20, width=100, height=50, scale=1, expand=5 the rectangle
is (10, 30, 230, 150) — not bottom=160 as the claim stated. -/
theorem claim_C1 (x y w h s e : ℚ) :
    image_crop_arg (save_crop_box ⟨x, y⟩ ⟨w, h⟩ s e)
        = (x * (s * 2) - e * (s * 2), y * (s * 2) - e * (s * 2),
            (x + w) * (s * 2) + e * (s * 2),
            (y + h) * (s * 2) + e * (s * 2))
      ∧ save_crop_box ⟨10, 20⟩ ⟨100, 50⟩ 1 5
        = { left := 10, top := 30, right := 230, bottom := 150 } := by
  constructor
  · rfl
  · simp only [save_crop_box, scaling_factor, expansion_amount,
      CropRect.mk.injEq]
    norm_num

/-- C1 counterexample: at the exact input named by the claim
(x=10, y=20, width=100, height=50, scale=1, expand=5) the bottom crop
coordinate is 150, not the claimed 160 (the arithmetic of the worked
example is wrong: (20+50)·2+10 = 150). -/
theorem claim_C1_counterexample :
    (save_crop_box ⟨10, 20⟩ ⟨100, 50⟩ 1 5).bottom ≠ 160 := by
  simp only [save_crop_box, scaling_factor, expansion_amount]
  norm_num

/-- C2: the scaling factor is exactly scale·2 and the expansion amount
is exactly expand·scale·2, for every scale and expand. -/
theorem claim_C2 (scale expand : ℚ) :
    scaling_factor scale = scale * 2
      ∧ expansion_amount expand scale = expand * scale * 2 := by
  refine ⟨rfl, ?_⟩
  simp only [expansion_amount, scaling_factor]
  ring

/-- C3 (amended): save appends ".png" exactly when the path contains
no dot character at all; any path containing a dot — even a bare
trailing dot or a dot only in a directory component — is used
unchanged. -/
theorem claim_C3 (file : List Char) :
    save_fix_file file
      = if '.' ∈ file then file else file ++ ".png".data := by
  by_cases h : '.' ∈ file
  · rw [if_pos h, save_fix_file_of_mem file h]
  · rw [if_neg h, save_fix_file_of_not_mem file h]

/-- C3 counterexample: the path "table." has no extension in the
conventional sense (nothing follows its last dot), yet save does not
append ".png" to it — the code keys on the presence of a dot, not on
the presence of an extension. -/
theorem claim_C3_counterexample :
    claimed_has_extension "table.".data = false
      ∧ save_fix_file "table.".data ≠ "table.".data ++ ".png".data := by
  decide

/-- C4: any web_driver value outside the four recognized strings
leaves both the driver constructor and the options variable unbound,
and the configuration phase then fails with a NameError at the first
use of the options (before any browser session is opened) rather than
with a dedicated unsupported-driver error. -/
theorem claim_C4 (web_driver : String) (ws : ℤ × ℤ)
    (h : web_driver ∉ (["chrome", "firefox", "safari", "edge"] : List String)) :
    select_wdriver web_driver = none
      ∧ initial_wd_options web_driver = none
      ∧ configured_wd_options web_driver ws
          = Except.error PyErr.nameError := by
  simp only [List.mem_cons, List.not_mem_nil, or_false, not_or] at h
  obtain ⟨h1, h2, h3, h4⟩ := h
  refine ⟨?_, ?_, ?_⟩
  · simp [select_wdriver, h1, h2, h3, h4]
  · simp [initial_wd_options, h1, h2, h3, h4]
  · simp [configured_wd_options, initial_wd_options, readLocal,
      h1, h2, h3, h4]
    rfl

/-- C4 witness at the concrete unrecognized value "opera". -/
theorem claim_C4_witness :
    select_wdriver "opera" = none
      ∧ initial_wd_options "opera" = none
      ∧ configured_wd_options "opera" (6000, 6000)
          = Except.error PyErr.nameError :=
  claim_C4 "opera" (6000, 6000) (by decide)

/-- C5: for each recognized web_driver value the configured options
are exactly the "--headless" argument (present if and only if the
driver is not "firefox") followed by the width and height arguments
built from the requested window_size. -/
theorem claim_C5 (ws : ℤ × ℤ) :
    configured_wd_options "chrome" ws
        = Except.ok ["--headless", s!"--width={ws.1}", s!"--height={ws.2}"]
      ∧ configured_wd_options "safari" ws
        = Except.ok ["--headless", s!"--width={ws.1}", s!"--height={ws.2}"]
      ∧ configured_wd_options "edge" ws
        = Except.ok ["--headless", s!"--width={ws.1}", s!"--height={ws.2}"]
      ∧ configured_wd_options "firefox" ws
        = Except.ok [s!"--width={ws.1}", s!"--height={ws.2}"] := by
  refine ⟨rfl, rfl, rfl, rfl⟩

/-- C6: as_raw_html is exactly the composition of building the render
tree for the "html" context with serializing it under the two flags;
being a pure function of its arguments it has no observable side
effects, and by the bind equation any failure of the underlying steps
is returned to the caller unchanged. -/
theorem claim_C6 (gt : GT) (make_page all_important : Bool) :
    as_raw_html gt make_page all_important
      = (gt.build_data "html").bind
          (fun built => built.render_as_html make_page all_important) := rfl

/-- C7 (amended): doubling scale doubles the scaling factor and
exactly doubles the crop rectangle's span in both axes (the expansion
margin scales along, so this is exact); the center point is not fixed
in screenshot coordinates — it doubles as well, always coinciding with
the element's center at the current scaling factor, so it is invariant
only after dividing out the scaling factor. -/
theorem claim_C7 (x y w h s e : ℚ) :
    scaling_factor (2 * s) = 2 * scaling_factor s
      ∧ (save_crop_box ⟨x, y⟩ ⟨w, h⟩ (2 * s) e).right
            - (save_crop_box ⟨x, y⟩ ⟨w, h⟩ (2 * s) e).left
          = 2 * ((save_crop_box ⟨x, y⟩ ⟨w, h⟩ s e).right
            - (save_crop_box ⟨x, y⟩ ⟨w, h⟩ s e).left)
      ∧ (save_crop_box ⟨x, y⟩ ⟨w, h⟩ (2 * s) e).bottom
            - (save_crop_box ⟨x, y⟩ ⟨w, h⟩ (2 * s) e).top
          = 2 * ((save_crop_box ⟨x, y⟩ ⟨w, h⟩ s e).bottom
            - (save_crop_box ⟨x, y⟩ ⟨w, h⟩ s e).top)
      ∧ ((save_crop_box ⟨x, y⟩ ⟨w, h⟩ (2 * s) e).left
            + (save_crop_box ⟨x, y⟩ ⟨w, h⟩ (2 * s) e).right) / 2
          = 2 * (((save_crop_box ⟨x, y⟩ ⟨w, h⟩ s e).left
            + (save_crop_box ⟨x, y⟩ ⟨w, h⟩ s e).right) / 2)
      ∧ ((save_crop_box ⟨x, y⟩ ⟨w, h⟩ s e).left
            + (save_crop_box ⟨x, y⟩ ⟨w, h⟩ s e).right) / 2
          = (x + w / 2) * scaling_factor s
      ∧ ((save_crop_box ⟨x, y⟩ ⟨w, h⟩ s e).top
            + (save_crop_box ⟨x, y⟩ ⟨w, h⟩ s e).bottom) / 2
          = (y + h / 2) * scaling_factor s := by
  simp only [save_crop_box, scaling_factor, expansion_amount]
  refine ⟨by ring, by ring, by ring, by ring, by ring, by ring⟩

/-- C7 counterexample: with the element fixed at x=10, y=20,
width=100, height=50 and expand=5, doubling the scale from 1 to 2
moves the crop rectangle's horizontal center from 120 to 240 — the
center point does change. -/
theorem claim_C7_counterexample :
    ((save_crop_box ⟨10, 20⟩ ⟨100, 50⟩ 2 5).left
        + (save_crop_box ⟨10, 20⟩ ⟨100, 50⟩ 2 5).right) / 2
      ≠ ((save_crop_box ⟨10, 20⟩ ⟨100, 50⟩ 1 5).left
        + (save_crop_box ⟨10, 20⟩ ⟨100, 50⟩ 1 5).right) / 2 := by
  simp only [save_crop_box, scaling_factor, expansion_amount]
  norm_num

/-- C8: whatever the outcomes of the browser calls, the with-block of
save releases the browser session and then the temporary HTML file
after the body, on the success path and on every failure path alike,
and its outcome is the body's outcome unchanged (errors propagate to
the caller with no retry). -/
theorem claim_C8 (env : BrowserEnv) :
    (save_with_block env).2 = (session_body env).2
      ∧ (save_with_block env).1
        = Ev.acquireTempFile :: Ev.acquireBrowser :: (session_body env).1
            ++ [Ev.releaseBrowser, Ev.releaseTempFile] := by
  refine ⟨rfl, ?_⟩
  simp [save_with_block, pyWith]

/-- C9: the HTML content save writes to the temporary file is
as_raw_html of the table with make_page=False (and
all_important=False), that is, an HTML fragment rather than a full
page scaffold. -/
theorem claim_C9 (gt : GT) :
    save_html_content gt = as_raw_html gt false false := rfl

/-- C10: save appends ".png" if and only if the path contains no dot
character anywhere; in particular the path "table." (bare trailing
dot) and the path "out.dir/table" (only dot in a directory component)
are used unchanged, because the code compares the length of the field
after the last dot with the length of the whole string. -/
theorem claim_C10 (file : List Char) :
    (save_fix_file file = file ++ ".png".data ↔ '.' ∉ file)
      ∧ save_fix_file "table.".data = "table.".data
      ∧ save_fix_file "out.dir/table".data = "out.dir/table".data := by
  refine ⟨⟨?_, ?_⟩, by decide, by decide⟩
  · intro hEq hmem
    rw [save_fix_file_of_mem file hmem] at hEq
    have hlen := congrArg List.length hEq
    rw [List.length_append] at hlen
    have h4 : (".png".data).length = 4 := rfl
    rw [h4] at hlen
    omega
  · exact fun hmem => save_fix_file_of_not_mem file hmem

end GreatTables
